import Mathlib

/-!
# ControLeo2 ReflowOven2 firmware — shallow embedding

A shallow embedding of the phase state machine and heater-cycle driver of
`src/ControLeo2/examples/ReflowOven2/ReflowOven2.ino`, together with theorems
settling the specification claims about it.

Modelling conventions:
* C `double` temperatures are modelled as `Rat` (all comparisons in the source
  are exact order/equality comparisons, which `Rat` reflects faithfully).
* C `int` fields are modelled as `Int` (no value in the source approaches the
  machine bounds); `unsigned long` millisecond timestamps are `Nat`.
* Thermocouple readings are supplied as an input stream `rd : Nat → Rat`
  together with the index of the next unread sample; every call to
  `readThermocouple()` consumes one sample.
* `Serial` prints, LCD calls and the buzzer are modelled as an emitted trace
  of `Event`s; EEPROM/pin writes to the outside world are dropped (only the
  profile byte read feeds back into the logic, and it is an explicit input).
* The mutually recursive procedures `CaptureTemperatureSample`, `End`,
  `ResetState` and `TransitionToPhase` are given a fuel parameter: a result
  `(events, none)` means the events were emitted and then the call chain did
  not return within the given fuel.
-/

namespace ControLeo2

/-- `#define MAX_START_TEMP 50` — maximum temperature where a new reflow
session will be allowed to start. -/
def MAX_START_TEMP : Int := 50

/-- `#define NUM_PHASES 4` — number of phases in a profile. -/
def NUM_PHASES : Nat := 4

/-- `#define NUM_HEATERS 3` — number of heaters installed. -/
def NUM_HEATERS : Nat := 3

/-- `#define DEFAULT_PROFILE 0` — default temperature profile at startup. -/
def DEFAULT_PROFILE : Int := 0

/-- `enum CrossingDirection { RISE, FALL }`. -/
inductive CrossingDirection where
  | RISE
  | FALL
  deriving DecidableEq, Repr

/-- `struct ReflowPhase`. `HeaterPattern` is the fixed `NUM_HEATERS`-entry
array of 8-bit duty masks, modelled as a list of naturals. -/
structure ReflowPhase where
  Name : String
  ExitTemperatureC : Int
  RisingOrFalling : CrossingDirection
  MinDurationS : Int
  MaxDurationS : Int
  TargetDurationS : Int
  HeaterPattern : List Nat
  AlarmOnExit : Bool
  deriving DecidableEq, Repr

/-- `ReflowPhase idlePhase = { "Idle", 0, RISE, 0, 0, 0, {0,0,0}, false }`. -/
def idlePhase : ReflowPhase :=
  { Name := "Idle", ExitTemperatureC := 0, RisingOrFalling := .RISE,
    MinDurationS := 0, MaxDurationS := 0, TargetDurationS := 0,
    HeaterPattern := [0b00000000, 0b00000000, 0b00000000], AlarmOnExit := false }

/-- `ReflowPhase coolingPhase = { "Cooling", MAX_START_TEMP, FALL, 0, 0, 0, {0,0,0}, false }`. -/
def coolingPhase : ReflowPhase :=
  { Name := "Cooling", ExitTemperatureC := MAX_START_TEMP, RisingOrFalling := .FALL,
    MinDurationS := 0, MaxDurationS := 0, TargetDurationS := 0,
    HeaterPattern := [0b00000000, 0b00000000, 0b00000000], AlarmOnExit := false }

/-- `struct ReflowProfile`. -/
structure ReflowProfile where
  Name : String
  Phases : List ReflowPhase
  deriving DecidableEq, Repr

/-- The `profiles[]` array, transcribed from the source. -/
def profiles : List ReflowProfile :=
  [ { Name := "Lead-free solder",
      Phases :=
        [ { Name := "Pre-heat", ExitTemperatureC := 150, RisingOrFalling := .RISE,
            MinDurationS := 0, MaxDurationS := 0, TargetDurationS := 90,
            HeaterPattern := [0b11001101, 0b10111110, 0b01010011], AlarmOnExit := false },
          { Name := "Soak", ExitTemperatureC := 205, RisingOrFalling := .RISE,
            MinDurationS := 30, MaxDurationS := 120, TargetDurationS := 30,
            HeaterPattern := [0b01000100, 0b10101011, 0b00010000], AlarmOnExit := false },
          { Name := "Liquidus", ExitTemperatureC := 235, RisingOrFalling := .RISE,
            MinDurationS := 30, MaxDurationS := 90, TargetDurationS := 60,
            HeaterPattern := [0b11011110, 0b10111111, 0b01101101], AlarmOnExit := false },
          { Name := "Reflow", ExitTemperatureC := 225, RisingOrFalling := .FALL,
            MinDurationS := 30, MaxDurationS := 90, TargetDurationS := 60,
            HeaterPattern := [0b00010001, 0b01000100, 0b00000000], AlarmOnExit := true } ] },
    { Name := "Leaded solder",
      Phases :=
        [ { Name := "Pre-heat", ExitTemperatureC := 145, RisingOrFalling := .RISE,
            MinDurationS := 0, MaxDurationS := 0, TargetDurationS := 90,
            HeaterPattern := [0b11001101, 0b01110110, 0b01010011], AlarmOnExit := false },
          { Name := "Soak", ExitTemperatureC := 180, RisingOrFalling := .RISE,
            MinDurationS := 30, MaxDurationS := 120, TargetDurationS := 30,
            HeaterPattern := [0b01000100, 0b10101011, 0b00010001], AlarmOnExit := false },
          { Name := "Liquidus", ExitTemperatureC := 210, RisingOrFalling := .RISE,
            MinDurationS := 30, MaxDurationS := 90, TargetDurationS := 60,
            HeaterPattern := [0b10111110, 0b11110111, 0b00101000], AlarmOnExit := true },
          { Name := "Reflow", ExitTemperatureC := 180, RisingOrFalling := .FALL,
            MinDurationS := 30, MaxDurationS := 90, TargetDurationS := 60,
            HeaterPattern := [0b01000000, 0b00011000, 0b00000100], AlarmOnExit := false } ] } ]

/-- `#define NUM_PROFILES (sizeof(profiles)/sizeof(ReflowProfile))` — the
array size, computed from the initialised data. -/
def NUM_PROFILES : Int := profiles.length

/-- `profiles[i]` for an `int` index (in-range accesses only occur with
`0 ≤ i < NUM_PROFILES`; the default is arbitrary, as out-of-range access is
undefined in the source language). -/
def profileAt (i : Int) : ReflowProfile :=
  profiles.getD i.toNat { Name := "", Phases := [] }

/-- `struct OvenState` (the timer bookkeeping fields `LastClocked`,
`NextClock`, `NextSample`, `NextCycle` and the display helper `SecInPhase`
belong to the polling loop, which no claim is about, and are omitted).
`PhaseSchedule` is the `NUM_PHASES + 2` entry array, modelled as a total
function on indices. -/
structure OvenState where
  SelectedProfile : Int
  IsFaulted : Bool
  IsActive : Bool
  TemperatureC : Rat
  PeakTemperatureC : Rat
  ActiveHeatCycle : Int
  ActivePhase : Nat
  EnteredCurrentPhase : Nat
  ActiveSince : Nat
  PhaseSchedule : Nat → ReflowPhase

/-- The initialiser of `currentState`:
`{ -1, false, false, 0, 0, …, 0, 0, 0, 0, 0, { idle×5, cooling } }`. -/
def currentState0 : OvenState :=
  { SelectedProfile := -1, IsFaulted := false, IsActive := false,
    TemperatureC := 0, PeakTemperatureC := 0, ActiveHeatCycle := 0,
    ActivePhase := 0, EnteredCurrentPhase := 0, ActiveSince := 0,
    PhaseSchedule := fun i => if i = NUM_PHASES + 1 then coolingPhase else idlePhase }

/-- Modelled from the spec: the thermocouple library header (`ControLeo2.h`,
not part of this repository snapshot) defines three distinct fault sentinel
readings `FAULT_OPEN`, `FAULT_SHORT_GND`, `FAULT_SHORT_VCC` for open circuit,
short to ground and short to supply; the spec's temperature source reports
`FaultKind ∈ {OpenCircuit, ShortToGround, ShortToSupply}`. Only their
distinctness from each other and from genuine Celsius readings matters. -/
def FAULT_OPEN : Rat := -1

/-- Modelled from the spec: second fault sentinel (see `FAULT_OPEN`). -/
def FAULT_SHORT_GND : Rat := -2

/-- Modelled from the spec: third fault sentinel (see `FAULT_OPEN`). -/
def FAULT_SHORT_VCC : Rat := -3

/-- Observable side effects emitted by the core (Serial diagnostics, buzzer). -/
inductive Event where
  /-- `MoveToNextPhase` was invoked: `**<reason>, Time in phase: <t>s, …`. -/
  | moved (reason : String) (timeInPhase : Int)
  /-- `TransitionToPhase` changed the phase: the `Leaving Phase:` /
  `Entering Phase:` diagnostic pair. -/
  | transition (fromIx toIx : Nat) (elapsed : Int)
  /-- `End` ran: `Profile Aborted by User` / `Profile Finished`. -/
  | ended (userInitiated : Bool)
  /-- `Thermocouple Fault: …` was reported. -/
  | fault
  /-- `EnableBuzzer(ON)` from an `AlarmOnExit` phase exit. -/
  | alarm
  deriving DecidableEq, Repr

/-- Result of one modelled procedure call: the emitted trace, and — when the
call returned within the available fuel — the final state with the index of
the next unread thermocouple sample. -/
abbrev ProcResult := List Event × Option (OvenState × Nat)

/-- Selector for the four mutually recursive lifecycle procedures of the
source; they are modelled as the single fuel-indexed function
`lifecycleRun`, so the mutual recursion is structural on the fuel. -/
inductive Proc where
  | capture
  | endRun (isUserInitiated : Bool)
  | reset
  | transition (phase : Nat)

/-- The bodies of the four mutually recursive procedures
`CaptureTemperatureSample`, `End`, `ResetState` and `TransitionToPhase`
(see the wrappers below for the per-procedure documentation); every
recursive call consumes one unit of fuel. -/
def lifecycleRun : Nat → Proc → (Nat → Rat) → Nat → Nat → OvenState → ProcResult
  | 0, _, _, _, _, _ => ([], none)
  | fuel + 1, .capture, rd, ix, now, s =>
    let currentTemperature := rd ix
    let ix := ix + 1
    if s.TemperatureC = currentTemperature then ([], some (s, ix))
    else
      let step1 : ProcResult :=
        if currentTemperature = FAULT_OPEN ∨ currentTemperature = FAULT_SHORT_GND ∨
            currentTemperature = FAULT_SHORT_VCC then
          let r := lifecycleRun fuel (.endRun false) rd ix now { s with IsFaulted := true }
          (Event.fault :: r.1, r.2)
        else ([], some ({ s with IsFaulted := false }, ix))
      match step1 with
      | (ev, none) => (ev, none)
      | (ev, some (s1, ix1)) =>
        let s2 := if s1.PeakTemperatureC < currentTemperature then
            { s1 with PeakTemperatureC := currentTemperature } else s1
        (ev, some ({ s2 with TemperatureC := currentTemperature }, ix1))
  | fuel + 1, .endRun isUserInitiated, rd, ix, now, s =>
    let s := { s with PeakTemperatureC := 0, ActiveSince := now }
    let r := lifecycleRun fuel .reset rd ix now s
    (Event.ended isUserInitiated :: r.1, r.2)
  | fuel + 1, .reset, rd, ix, now, s =>
    match lifecycleRun fuel .capture rd ix now s with
    | (ev, none) => (ev, none)
    | (ev, some (s1, ix1)) =>
      if (MAX_START_TEMP : Rat) < s1.TemperatureC then
        let r := lifecycleRun fuel (.transition (NUM_PHASES + 1)) rd ix1 now
          { s1 with IsActive := true }
        (ev ++ r.1, r.2)
      else
        match lifecycleRun fuel (.transition 0) rd ix1 now s1 with
        | (ev2, none) => (ev ++ ev2, none)
        | (ev2, some (s2, ix2)) => (ev ++ ev2, some ({ s2 with IsActive := false }, ix2))
  | fuel + 1, .transition phase, rd, ix, now, s =>
    if phase = s.ActivePhase then ([], some (s, ix))
    else if NUM_PHASES + 1 < phase then
      lifecycleRun fuel (.endRun false) rd ix now s
    else
      let timeInLastPhase : Int := ((now - s.EnteredCurrentPhase) / 1000 : Nat)
      let oldPhase := s.PhaseSchedule s.ActivePhase
      let s' := { s with ActivePhase := phase, EnteredCurrentPhase := now }
      (Event.transition s.ActivePhase phase timeInLastPhase ::
        (if oldPhase.AlarmOnExit then [Event.alarm] else []),
       some (s', ix))

/-- `void CaptureTemperatureSample()`: reads the thermocouple, returns early
if the reading equals the stored temperature, otherwise handles faults
(marking `IsFaulted` and calling `End(false)`), tracks the peak and stores
the reading. -/
def CaptureTemperatureSample (fuel : Nat) (rd : Nat → Rat) (ix now : Nat)
    (s : OvenState) : ProcResult :=
  lifecycleRun fuel .capture rd ix now s

/-- `void End(boolean isUserInitiated)`: reports the run summary, resets the
peak temperature and `ActiveSince`, then calls `ResetState()`. -/
def End (fuel : Nat) (rd : Nat → Rat) (ix now : Nat) (s : OvenState)
    (isUserInitiated : Bool) : ProcResult :=
  lifecycleRun fuel (.endRun isUserInitiated) rd ix now s

/-- `void ResetState()`: samples the temperature once, then either jumps to
the Cooling phase as an active run (oven still above `MAX_START_TEMP`) or
returns to Idle, inactive. -/
def ResetState (fuel : Nat) (rd : Nat → Rat) (ix now : Nat) (s : OvenState) : ProcResult :=
  lifecycleRun fuel .reset rd ix now s

/-- `void TransitionToPhase(int phase)`: no-op when already in the requested
phase; a request beyond Cooling ends the run; otherwise records the phase
change, resets the phase-entry timestamp, and arms the buzzer when the old
phase has `AlarmOnExit`. -/
def TransitionToPhase (fuel : Nat) (rd : Nat → Rat) (ix now : Nat) (s : OvenState)
    (phase : Nat) : ProcResult :=
  lifecycleRun fuel (.transition phase) rd ix now s

/-- The phase record the controller is currently in:
`currentState.PhaseSchedule[currentState.ActivePhase]`. -/
def phaseAt (s : OvenState) : ReflowPhase := s.PhaseSchedule s.ActivePhase

/-- `int timeInPhase = (millis() - currentState.EnteredCurrentPhase) / 1000`. -/
def timeInPhase (now : Nat) (s : OvenState) : Int :=
  ((now - s.EnteredCurrentPhase) / 1000 : Nat)

/-- `void MoveToNextPhase(char* reason, int timeInPhase)`: reports the
transition reason and requests the next phase index. -/
def MoveToNextPhase (fuel : Nat) (rd : Nat → Rat) (ix now : Nat) (s : OvenState)
    (reason : String) (t : Int) : ProcResult :=
  let r := TransitionToPhase fuel rd ix now s (s.ActivePhase + 1)
  (Event.moved reason t :: r.1, r.2)

/-- `void CheckForPhaseTransition()`: the phase-advance state machine.
The locals `currentPhase`, `timeInPhase` and `dir` are captured once at
entry, exactly as in the source; the three guarded sections run in order on
the state as left by the previous section. -/
def CheckForPhaseTransition (fuel : Nat) (rd : Nat → Rat) (ix now : Nat)
    (s : OvenState) : ProcResult :=
  if s.IsActive = false then ([], some (s, ix))
  else if s.ActivePhase = 0 then ([], some (s, ix))
  else
    let currentPhase := phaseAt s
    let t := timeInPhase now s
    let dir := currentPhase.RisingOrFalling
    let rise : ProcResult :=
      if dir = .RISE then
        if (currentPhase.ExitTemperatureC : Rat) ≤ s.TemperatureC then
          if currentPhase.MinDurationS = 0 then
            MoveToNextPhase fuel rd ix now s "Exit Temperature Reached" t
          else if currentPhase.MinDurationS < t then
            MoveToNextPhase fuel rd ix now s "Duration/Temperature Reached" t
          else ([], some (s, ix))
        else ([], some (s, ix))
      else ([], some (s, ix))
    match rise with
    | (ev1, none) => (ev1, none)
    | (ev1, some (s1, ix1)) =>
      let fall : ProcResult :=
        if dir = .FALL then
          if s1.TemperatureC ≤ (currentPhase.ExitTemperatureC : Rat) then
            if currentPhase.MinDurationS = 0 then
              MoveToNextPhase fuel rd ix1 now s1 "Exit Temperature Reached" t
            else if currentPhase.MinDurationS < t then
              MoveToNextPhase fuel rd ix1 now s1 "Duration/Temperature Reached" t
            else ([], some (s1, ix1))
          else ([], some (s1, ix1))
        else ([], some (s1, ix1))
      match fall with
      | (ev2, none) => (ev1 ++ ev2, none)
      | (ev2, some (s2, ix2)) =>
        let maxCheck : ProcResult :=
          if 0 < currentPhase.MaxDurationS then
            if currentPhase.MaxDurationS ≤ t then
              MoveToNextPhase fuel rd ix2 now s2 "Max Duration Exceeded" t
            else ([], some (s2, ix2))
          else ([], some (s2, ix2))
        (ev1 ++ ev2 ++ maxCheck.1, maxCheck.2)

/-- `void AdvanceHeatingCycle()`: computes the duty mask from the current
duty step, advances the step only while active (forcing the mask to zero
when inactive), and returns the ON/OFF command written to each heater pin. -/
def AdvanceHeatingCycle (s : OvenState) : OvenState × (Nat → Bool) :=
  let mask : Nat := 0b10000000 >>> s.ActiveHeatCycle.toNat
  let step : OvenState × Nat :=
    if s.IsActive then
      ({ s with ActiveHeatCycle :=
          if 7 < s.ActiveHeatCycle + 1 then 0 else s.ActiveHeatCycle + 1 }, mask)
    else (s, 0b00000000)
  let s' := step.1
  let currentPhase := s'.PhaseSchedule s'.ActivePhase
  (s', fun heaterIx => (currentPhase.HeaterPattern.getD heaterIx 0) &&& step.2 != 0)

/-- `void AdvanceProfile(boolean silently)`: cyclically advances
`SelectedProfile` and copies the new profile's phases into schedule slots
`1 .. NUM_PHASES` (slot 0 stays Idle, the last slot stays Cooling). The
EEPROM write and display update in the non-silent case are external side
effects with no feedback into the core state. -/
def AdvanceProfile (s : OvenState) (_silently : Bool) : OvenState :=
  let sel := s.SelectedProfile + 1
  let sel := if NUM_PROFILES ≤ sel then 0 else sel
  let newProfile := profileAt sel
  { s with SelectedProfile := sel,
           PhaseSchedule := fun i =>
             if 1 ≤ i ∧ i ≤ NUM_PHASES then newProfile.Phases.getD (i - 1) idlePhase
             else s.PhaseSchedule i }

/-- The profile-restoration portion of `setup()`:
`while (currentState.SelectedProfile != lastProfile) AdvanceProfile(true);`,
modelled with fuel (`none` = the loop has not terminated within the fuel). -/
def setupProfileLoop : Nat → OvenState → Int → Option OvenState
  | 0, _, _ => none
  | fuel + 1, s, lastProfile =>
    if s.SelectedProfile ≠ lastProfile then
      setupProfileLoop fuel (AdvanceProfile s true) lastProfile
    else some s

/-- Modelled from the spec: `EEPROM.read(ADDR_CURR_PROFILE)` (the EEPROM
library is not part of this repository snapshot) is the spec's persistent
scalar byte store `readByte(key)`; the stored byte is taken as an input.
The rest is `setup()`'s restoration logic from the source: byte 255 falls
back to `DEFAULT_PROFILE`, then the loop advances until the selection
matches. -/
def setupRestoreProfile (fuel : Nat) (storedByte : Nat) : Option OvenState :=
  let lastProfile : Int := if storedByte = 255 then DEFAULT_PROFILE else (storedByte : Int)
  setupProfileLoop fuel currentState0 lastProfile


/-! ## Statement-level predicates and concrete states -/

/-- The source's "threshold crossed" test (step 3 of the transition check):
rising phases cross at `ExitTemperatureC <= TemperatureC`, falling phases at
`ExitTemperatureC >= TemperatureC`. -/
def thresholdCrossed (s : OvenState) : Prop :=
  ((phaseAt s).RisingOrFalling = .RISE ∧
    ((phaseAt s).ExitTemperatureC : Rat) ≤ s.TemperatureC) ∨
  ((phaseAt s).RisingOrFalling = .FALL ∧
    s.TemperatureC ≤ ((phaseAt s).ExitTemperatureC : Rat))

instance (s : OvenState) : Decidable (thresholdCrossed s) := by
  unfold thresholdCrossed
  infer_instance

/-- The threshold/minimum-duration guard of `CheckForPhaseTransition`, as
evaluated on the state at entry to the check. -/
def thresholdFired (now : Nat) (s : OvenState) : Prop :=
  thresholdCrossed s ∧
    ((phaseAt s).MinDurationS = 0 ∨ (phaseAt s).MinDurationS < timeInPhase now s)

instance (now : Nat) (s : OvenState) : Decidable (thresholdFired now s) := by
  unfold thresholdFired
  infer_instance

/-- The max-duration guard of `CheckForPhaseTransition`, as evaluated on the
locals captured at entry to the check. -/
def maxFired (now : Nat) (s : OvenState) : Prop :=
  0 < (phaseAt s).MaxDurationS ∧ (phaseAt s).MaxDurationS ≤ timeInPhase now s

instance (now : Nat) (s : OvenState) : Decidable (maxFired now s) := by
  unfold maxFired
  infer_instance

/-- The oven state right after `setup()` has walked the profile loop onto the
lead-free profile (selection 0), used as a base for concrete test states. -/
def leadFreeState : OvenState := AdvanceProfile currentState0 true

/-- An active lead-free run sitting in Soak (schedule index 2, exit 205 °C
rising, min 30 s, max 120 s) at 210 °C, having entered the phase at time 0. -/
def soakState : OvenState :=
  { leadFreeState with
      IsActive := true, TemperatureC := 210, PeakTemperatureC := 210, ActivePhase := 2 }

/-- An active lead-free run sitting in Pre-heat (schedule index 1, exit
150 °C rising, no minimum duration) at 150 °C. -/
def preheatState : OvenState :=
  { leadFreeState with
      IsActive := true, TemperatureC := 150, PeakTemperatureC := 150, ActivePhase := 1 }

/-- An active lead-free run stuck in Soak at 100 °C (exit threshold never
crossed). -/
def soakOverrunState : OvenState :=
  { leadFreeState with
      IsActive := true, TemperatureC := 100, PeakTemperatureC := 180, ActivePhase := 2 }

/-- An active lead-free run in Pre-heat at 25 °C, about to sample a faulted
thermocouple. -/
def faultRunState : OvenState :=
  { leadFreeState with IsActive := true, TemperatureC := 25, ActivePhase := 1 }

/-- An idle state whose stored temperature happens to equal the `FAULT_OPEN`
sentinel (as the source leaves behind after a completed fault handling). -/
def faultStoredState : OvenState :=
  { leadFreeState with TemperatureC := FAULT_OPEN }

/-! ## Claim theorems -/

/-- Bridge between the source's duty-mask test `pattern & (0b10000000 >> c)`
and bit `7 - c` of the pattern. -/
theorem and_mask_eq_testBit (p c : Nat) (hc : c ≤ 7) :
    (p &&& (128 >>> c) != 0) = p.testBit (7 - c) := by
  have h : (128 : Nat) >>> c = 2 ^ (7 - c) := by
    interval_cases c <;> rfl
  rw [h, Nat.and_two_pow]
  cases hb : p.testBit (7 - c) <;> simp

/-- C6: while active, heater `h` is driven ON iff bit `7 - dutyStep` of the
active phase's `HeaterPattern[h]` is set, and the duty step increments
wrapping from 7 to 0; while inactive, every heater output is OFF and the
state (in particular the duty step) is untouched. -/
theorem advanceHeatingCycle_spec (s : OvenState)
    (h0 : 0 ≤ s.ActiveHeatCycle) (h7 : s.ActiveHeatCycle ≤ 7) :
    (s.IsActive = true →
      (AdvanceHeatingCycle s).1.ActiveHeatCycle = (s.ActiveHeatCycle + 1) % 8 ∧
      ∀ h, (AdvanceHeatingCycle s).2 h =
        ((phaseAt s).HeaterPattern.getD h 0).testBit (7 - s.ActiveHeatCycle.toNat)) ∧
    (s.IsActive = false →
      (AdvanceHeatingCycle s).1 = s ∧ ∀ h, (AdvanceHeatingCycle s).2 h = false) := by
  constructor
  · intro hA
    constructor
    · simp only [AdvanceHeatingCycle, hA, if_true]
      by_cases hcc : (7 : Int) < s.ActiveHeatCycle + 1
      · rw [if_pos hcc]
        omega
      · rw [if_neg hcc]
        omega
    · intro h
      simp only [AdvanceHeatingCycle, hA, if_true]
      exact and_mask_eq_testBit _ _ (by omega)
  · intro hA
    simp [AdvanceHeatingCycle, hA, phaseAt]

/-- C6 witness: a concrete active state at duty step 3 in Soak. -/
theorem advanceHeatingCycle_spec_witness :
    (0 ≤ (soakState.ActiveHeatCycle)) ∧
    ((soakState.IsActive = true →
      (AdvanceHeatingCycle soakState).1.ActiveHeatCycle = (soakState.ActiveHeatCycle + 1) % 8 ∧
      ∀ h, (AdvanceHeatingCycle soakState).2 h =
        ((phaseAt soakState).HeaterPattern.getD h 0).testBit (7 - soakState.ActiveHeatCycle.toNat)) ∧
    (soakState.IsActive = false →
      (AdvanceHeatingCycle soakState).1 = soakState ∧
      ∀ h, (AdvanceHeatingCycle soakState).2 h = false)) :=
  ⟨by decide, advanceHeatingCycle_spec soakState (by decide) (by decide)⟩

/-- C7: `AdvanceProfile` rotates the selection cyclically modulo the catalog
size, two (= catalog size) consecutive calls restore the original selection,
and after a call the interior schedule slots `1 .. NUM_PHASES` are exactly
the selected profile's phases while the Idle slot 0 and the Cooling slot
`NUM_PHASES + 1` are unchanged. -/
theorem advanceProfile_spec (s : OvenState) (b b' : Bool)
    (h0 : 0 ≤ s.SelectedProfile) (h2 : s.SelectedProfile < NUM_PROFILES) :
    (AdvanceProfile s b).SelectedProfile = (s.SelectedProfile + 1) % NUM_PROFILES ∧
    (AdvanceProfile (AdvanceProfile s b) b').SelectedProfile = s.SelectedProfile ∧
    (∀ i, 1 ≤ i → i ≤ NUM_PHASES →
      (AdvanceProfile s b).PhaseSchedule i =
        (profileAt (AdvanceProfile s b).SelectedProfile).Phases.getD (i - 1) idlePhase) ∧
    (AdvanceProfile s b).PhaseSchedule 0 = s.PhaseSchedule 0 ∧
    (AdvanceProfile s b).PhaseSchedule (NUM_PHASES + 1) = s.PhaseSchedule (NUM_PHASES + 1) := by
  have hNP : NUM_PROFILES = 2 := rfl
  have hs : s.SelectedProfile = 0 ∨ s.SelectedProfile = 1 := by omega
  refine ⟨?_, ?_, ?_, ?_, ?_⟩
  · rcases hs with h | h <;> simp [AdvanceProfile, hNP, h]
  · rcases hs with h | h <;> simp [AdvanceProfile, hNP, h]
  · intro i h1 h4
    simp only [AdvanceProfile]
    rw [if_pos ⟨h1, h4⟩]
  · simp only [AdvanceProfile]
    rw [if_neg (by simp)]
  · simp only [AdvanceProfile]
    rw [if_neg (by simp [NUM_PHASES])]

/-- C7 witness: advancing from the lead-free selection. -/
theorem advanceProfile_spec_witness :
    (0 ≤ leadFreeState.SelectedProfile ∧ leadFreeState.SelectedProfile < NUM_PROFILES) ∧
    ((AdvanceProfile leadFreeState true).SelectedProfile =
        (leadFreeState.SelectedProfile + 1) % NUM_PROFILES ∧
    (AdvanceProfile (AdvanceProfile leadFreeState true) false).SelectedProfile =
        leadFreeState.SelectedProfile ∧
    (∀ i, 1 ≤ i → i ≤ NUM_PHASES →
      (AdvanceProfile leadFreeState true).PhaseSchedule i =
        (profileAt (AdvanceProfile leadFreeState true).SelectedProfile).Phases.getD
          (i - 1) idlePhase) ∧
    (AdvanceProfile leadFreeState true).PhaseSchedule 0 = leadFreeState.PhaseSchedule 0 ∧
    (AdvanceProfile leadFreeState true).PhaseSchedule (NUM_PHASES + 1) =
        leadFreeState.PhaseSchedule (NUM_PHASES + 1)) :=
  ⟨⟨by decide, by decide⟩, advanceProfile_spec leadFreeState true false (by decide) (by decide)⟩

/-- C9: a `TransitionToPhase` request equal to the current phase is a no-op,
and a request beyond the Cooling index is not a fault: it is exactly a call
to `End` (so the out-of-range index is never stored). -/
theorem transitionToPhase_noop_and_beyond_cooling (fuel ix now : Nat) (rd : Nat → Rat)
    (s : OvenState) (phase : Nat) :
    (phase = s.ActivePhase → TransitionToPhase (fuel + 1) rd ix now s phase = ([], some (s, ix))) ∧
    (phase ≠ s.ActivePhase → NUM_PHASES + 1 < phase →
      TransitionToPhase (fuel + 1) rd ix now s phase = End fuel rd ix now s false) := by
  constructor
  · intro h
    simp [TransitionToPhase, lifecycleRun, h]
  · intro h1 h2
    simp [TransitionToPhase, End, lifecycleRun, h1, h2]

/-- C9 witness: request to phase 7 (beyond Cooling) from Soak, and the no-op
request to phase 2. -/
theorem transitionToPhase_noop_and_beyond_cooling_witness :
    TransitionToPhase 6 (fun _ => 25) 0 1000 soakState 7 =
      End 5 (fun _ => 25) 0 1000 soakState false ∧
    TransitionToPhase 6 (fun _ => 25) 0 1000 soakState 2 = ([], some (soakState, 0)) :=
  ⟨(transitionToPhase_noop_and_beyond_cooling 5 0 1000 (fun _ => 25) soakState 7).2
      (by decide) (by decide),
   (transitionToPhase_noop_and_beyond_cooling 5 0 1000 (fun _ => 25) soakState 2).1 (by decide)⟩

/-- C10: a temperature read equal to the stored `TemperatureC` makes
`CaptureTemperatureSample` return immediately with no state change and no
emitted diagnostics — in particular a fault reading equal to the stored
value neither sets `IsFaulted` nor ends the run, and neither the peak nor
the displayed temperature is updated. -/
theorem captureTemperatureSample_equal_reading_noop (fuel ix now : Nat) (rd : Nat → Rat)
    (s : OvenState) (h : rd ix = s.TemperatureC) :
    CaptureTemperatureSample (fuel + 1) rd ix now s = ([], some (s, ix + 1)) := by
  simp [CaptureTemperatureSample, lifecycleRun, h]

/-- C10 witness: a stored temperature equal to the `FAULT_OPEN` sentinel and
a reading of the same value: nothing happens. -/
theorem captureTemperatureSample_equal_reading_noop_witness :
    (fun _ => FAULT_OPEN : Nat → Rat) 0 = faultStoredState.TemperatureC ∧
    CaptureTemperatureSample 4 (fun _ => FAULT_OPEN) 0 1000 faultStoredState =
      ([], some (faultStoredState, 1)) :=
  ⟨by decide,
   captureTemperatureSample_equal_reading_noop 3 0 1000 (fun _ => FAULT_OPEN)
     faultStoredState (by decide)⟩

/-- Helper for C5: once `SelectedProfile < NUM_PROFILES`, `AdvanceProfile`
keeps it so; hence the startup loop can never reach a target index outside
the catalog, and with target 2 it never terminates. -/
theorem setupProfileLoop_target_two_none :
    ∀ (fuel : Nat) (s : OvenState), s.SelectedProfile < 2 →
      setupProfileLoop fuel s 2 = none := by
  intro fuel
  induction fuel with
  | zero => intro s _; rfl
  | succ n ih =>
    intro s hs
    have hne : s.SelectedProfile ≠ 2 := by omega
    rw [setupProfileLoop, if_pos hne]
    apply ih
    have hNP : NUM_PROFILES = 2 := rfl
    simp only [AdvanceProfile, hNP]
    split <;> omega

/-- The startup restoration with stored byte 2 runs out of every fuel bound:
the restoration loop never terminates on that concrete input. -/
def setupRestoreDivergesAtByteTwo : Prop :=
  ∀ fuel : Nat, setupRestoreProfile fuel 2 = none

/-- C5 counterexample: with stored byte 2 (outside the two-profile catalog
and not the 255 sentinel) the startup restoration loop
`while (SelectedProfile != lastProfile) AdvanceProfile(true)` never
terminates, however much fuel it is given. -/
theorem setupRestoreProfile_byte_two_diverges : setupRestoreDivergesAtByteTwo := by
  intro fuel
  have h2 : (if (2 : Nat) = 255 then DEFAULT_PROFILE else ((2 : Nat) : Int)) = 2 := by
    norm_num
  show setupProfileLoop fuel currentState0
    (if (2 : Nat) = 255 then DEFAULT_PROFILE else ((2 : Nat) : Int)) = none
  rw [h2]
  exact setupProfileLoop_target_two_none fuel currentState0 (by decide)

/-- C5 amended: startup restoration terminates, with the selection a valid
catalog index, for every stored byte that is itself a valid profile index or
the all-bits-set sentinel 255 (which falls back to `DEFAULT_PROFILE`);
other stored bytes make the restoration loop spin forever. -/
theorem setupRestoreProfile_valid_or_sentinel (b : Nat)
    (hb : b < NUM_PROFILES.toNat ∨ b = 255) :
    ((setupRestoreProfile 4 b).map fun s => s.SelectedProfile) =
      some (if b = 255 then DEFAULT_PROFILE else (b : Int)) ∧
    0 ≤ (if b = 255 then DEFAULT_PROFILE else (b : Int)) ∧
    (if b = 255 then DEFAULT_PROFILE else (b : Int)) < NUM_PROFILES := by
  rcases hb with hb | hb
  · have hNP : NUM_PROFILES.toNat = 2 := rfl
    have : b = 0 ∨ b = 1 := by omega
    rcases this with h | h <;> subst h
    · exact ⟨rfl, by decide, by decide⟩
    · exact ⟨rfl, by decide, by decide⟩
  · subst hb
    exact ⟨rfl, by decide, by decide⟩

/-- C5 witness: the sentinel byte 255 restores the default profile. -/
theorem setupRestoreProfile_valid_or_sentinel_witness :
    ((255 : Nat) < NUM_PROFILES.toNat ∨ (255 : Nat) = 255) ∧
    (((setupRestoreProfile 4 255).map fun s => s.SelectedProfile) =
      some (if (255 : Nat) = 255 then DEFAULT_PROFILE else ((255 : Nat) : Int)) ∧
    0 ≤ (if (255 : Nat) = 255 then DEFAULT_PROFILE else ((255 : Nat) : Int)) ∧
    (if (255 : Nat) = 255 then DEFAULT_PROFILE else ((255 : Nat) : Int)) < NUM_PROFILES) :=
  ⟨Or.inr rfl, setupRestoreProfile_valid_or_sentinel 255 (Or.inr rfl)⟩

/-- Helper: a non-fault sample makes `CaptureTemperatureSample` return in
one step, with no diagnostics, the reading stored, and the phase index
untouched. -/
theorem captureTemperatureSample_no_fault (fuel ix now : Nat) (rd : Nat → Rat)
    (s : OvenState) (hf : rd ix ≠ FAULT_OPEN ∧ rd ix ≠ FAULT_SHORT_GND ∧
      rd ix ≠ FAULT_SHORT_VCC) :
    ∃ s1, CaptureTemperatureSample (fuel + 1) rd ix now s = ([], some (s1, ix + 1)) ∧
      s1.TemperatureC = rd ix ∧ s1.ActivePhase = s.ActivePhase ∧
      s1.IsActive = s.IsActive := by
  obtain ⟨hf1, hf2, hf3⟩ := hf
  by_cases heq : s.TemperatureC = rd ix
  · exact ⟨s, by simp [CaptureTemperatureSample, lifecycleRun, heq], heq, rfl, rfl⟩
  · have hnofault : ¬ (rd ix = FAULT_OPEN ∨ rd ix = FAULT_SHORT_GND ∨
        rd ix = FAULT_SHORT_VCC) := by
      rintro (h | h | h) <;> [exact hf1 h; exact hf2 h; exact hf3 h]
    by_cases hpk : s.PeakTemperatureC < rd ix
    · exact ⟨{ s with IsFaulted := false, PeakTemperatureC := rd ix, TemperatureC := rd ix },
        by simp [CaptureTemperatureSample, lifecycleRun, heq, hnofault, hpk], rfl, rfl, rfl⟩
    · exact ⟨{ s with IsFaulted := false, TemperatureC := rd ix },
        by simp [CaptureTemperatureSample, lifecycleRun, heq, hnofault, hpk], rfl, rfl, rfl⟩

/-- C8: `ResetState` samples once; a (non-fault) reading above
`MAX_START_TEMP` leaves the controller active in the Cooling phase
(`NUM_PHASES + 1`), so heaters never re-engage on a hot oven; any other
reading leaves it inactive in Idle (phase 0). -/
theorem resetState_spec (fuel ix now : Nat) (rd : Nat → Rat) (s : OvenState)
    (hf : rd ix ≠ FAULT_OPEN ∧ rd ix ≠ FAULT_SHORT_GND ∧ rd ix ≠ FAULT_SHORT_VCC) :
    ((ResetState (fuel + 2) rd ix now s).2.map fun p => (p.1.IsActive, p.1.ActivePhase)) =
      some (if (MAX_START_TEMP : Rat) < rd ix then (true, NUM_PHASES + 1) else (false, 0)) := by
  obtain ⟨s1, hcap, hT, hP, _⟩ := captureTemperatureSample_no_fault fuel ix now rd s hf
  rw [CaptureTemperatureSample] at hcap
  show ((ResetState (fuel + 1 + 1) rd ix now s).2.map
    fun p => (p.1.IsActive, p.1.ActivePhase)) = _
  rw [ResetState, lifecycleRun, hcap]
  simp only [hT]
  by_cases hhot : (MAX_START_TEMP : Rat) < rd ix
  · rw [if_pos hhot, if_pos hhot]
    by_cases hP5 : NUM_PHASES + 1 = s1.ActivePhase
    · rw [lifecycleRun, if_pos hP5]
      simp [hP5.symm]
    · rw [lifecycleRun]
      rw [if_neg (by simpa using hP5), if_neg (by omega)]
      simp
  · rw [if_neg hhot, if_neg hhot]
    by_cases hP0 : (0 : Nat) = s1.ActivePhase
    · rw [lifecycleRun, if_pos hP0]
      simp [hP0.symm]
    · rw [lifecycleRun]
      rw [if_neg (by simpa using hP0), if_neg (by simp [NUM_PHASES])]
      simp

/-- C8 witness: resetting while the oven reads 60 °C (hot). -/
theorem resetState_spec_witness :
    ((fun _ => (60 : Rat)) 0 ≠ FAULT_OPEN ∧ (fun _ => (60 : Rat)) 0 ≠ FAULT_SHORT_GND ∧
      (fun _ => (60 : Rat)) 0 ≠ FAULT_SHORT_VCC) ∧
    ((ResetState 5 (fun _ => (60 : Rat)) 0 1000 soakState).2.map
        fun p => (p.1.IsActive, p.1.ActivePhase)) =
      some (if (MAX_START_TEMP : Rat) < (fun _ => (60 : Rat)) 0 then (true, NUM_PHASES + 1)
        else (false, 0)) :=
  ⟨⟨by decide, by decide, by decide⟩,
   resetState_spec 3 0 1000 (fun _ => (60 : Rat)) soakState ⟨by decide, by decide, by decide⟩⟩

/-- Helper: `lifecycleRun` (that is, `CaptureTemperatureSample`, `End`,
`ResetState` and `TransitionToPhase`) never emits an `Event.moved`; the
transition reasons of the check are reported only by `MoveToNextPhase`. -/
theorem moved_notMem_lifecycle :
    ∀ (fuel : Nat) (proc : Proc) (rd : Nat → Rat) (ix now : Nat) (s : OvenState)
      (r : String) (t : Int), Event.moved r t ∉ (lifecycleRun fuel proc rd ix now s).1 := by
  intro fuel
  induction fuel with
  | zero => intro proc rd ix now s r t; simp [lifecycleRun]
  | succ n ih =>
    intro proc rd ix now s r t
    cases proc with
    | capture =>
      by_cases heq : s.TemperatureC = rd ix
      · simp [lifecycleRun, heq]
      · by_cases hfault : rd ix = FAULT_OPEN ∨ rd ix = FAULT_SHORT_GND ∨
            rd ix = FAULT_SHORT_VCC
        · rcases hEnd : lifecycleRun n (.endRun false) rd (ix + 1) now
            { s with IsFaulted := true } with ⟨ev, res⟩
          have hev := ih (.endRun false) rd (ix + 1) now { s with IsFaulted := true } r t
          rw [hEnd] at hev
          cases res with
          | none => simp [lifecycleRun, heq, hfault, hEnd, hev]
          | some p =>
            rcases p with ⟨s1, ix1⟩
            simp [lifecycleRun, heq, hfault, hEnd, hev]
        · simp [lifecycleRun, heq, hfault]
    | endRun u =>
      have hres := ih .reset rd ix now { s with PeakTemperatureC := 0, ActiveSince := now } r t
      simp only [lifecycleRun, List.mem_cons]
      rintro (h | h)
      · exact Event.noConfusion h
      · exact hres h
    | reset =>
      rcases hC : lifecycleRun n .capture rd ix now s with ⟨ev, res⟩
      have hev := ih .capture rd ix now s r t
      rw [hC] at hev
      cases res with
      | none => simp [lifecycleRun, hC, hev]
      | some p =>
        rcases p with ⟨s1, ix1⟩
        by_cases hhot : (MAX_START_TEMP : Rat) < s1.TemperatureC
        · have ht := ih (.transition (NUM_PHASES + 1)) rd ix1 now { s1 with IsActive := true } r t
          simp [lifecycleRun, hC, hev, hhot, ht]
        · rcases hT2 : lifecycleRun n (.transition 0) rd ix1 now s1 with ⟨ev2, res2⟩
          have hev2 := ih (.transition 0) rd ix1 now s1 r t
          rw [hT2] at hev2
          cases res2 with
          | none => simp [lifecycleRun, hC, hev, hhot, hT2, hev2]
          | some p2 =>
            rcases p2 with ⟨s2, ix2⟩
            simp [lifecycleRun, hC, hev, hhot, hT2, hev2]
    | transition p =>
      by_cases h1 : p = s.ActivePhase
      · simp [lifecycleRun, h1]
      · by_cases h2 : NUM_PHASES + 1 < p
        · rw [lifecycleRun, if_neg h1, if_pos h2]
          exact ih (.endRun false) rd ix now s r t
        · rw [lifecycleRun, if_neg h1, if_neg h2]
          by_cases h3 : (s.PhaseSchedule s.ActivePhase).AlarmOnExit <;> simp [h3]


/-- C2: when the exit threshold is crossed in the phase's configured
direction (rising: `ExitTemperatureC <= T`; falling: `T <= ExitTemperatureC`),
the check advances with reason "Exit Temperature Reached" on that same
evaluation whenever `MinDurationS == 0`, and with reason
"Duration/Temperature Reached" exactly when the elapsed time is strictly
greater than a positive `MinDurationS`. -/
theorem checkForPhaseTransition_threshold_rule (fuel ix now : Nat) (rd : Nat → Rat)
    (s : OvenState) (hA : s.IsActive = true) (hP : s.ActivePhase ≠ 0)
    (hcross : thresholdCrossed s) :
    ((phaseAt s).MinDurationS = 0 →
      Event.moved "Exit Temperature Reached" (timeInPhase now s) ∈
        (CheckForPhaseTransition fuel rd ix now s).1) ∧
    (0 < (phaseAt s).MinDurationS →
      (Event.moved "Duration/Temperature Reached" (timeInPhase now s) ∈
          (CheckForPhaseTransition fuel rd ix now s).1 ↔
        (phaseAt s).MinDurationS < timeInPhase now s)) := by
  have hstr : ("Duration/Temperature Reached" : String) ≠ "Max Duration Exceeded" := by
    decide
  rcases hcross with ⟨hdir, htemp⟩ | ⟨hdir, htemp⟩
  · constructor
    · intro hmin
      rcases hT : TransitionToPhase fuel rd ix now s (s.ActivePhase + 1) with ⟨ev, res⟩
      cases res with
      | none =>
        simp [CheckForPhaseTransition, MoveToNextPhase, hA, hP, hdir, htemp, hmin, hT]
      | some p =>
        rcases p with ⟨s1, ix1⟩
        simp [CheckForPhaseTransition, MoveToNextPhase, hA, hP, hdir, htemp, hmin, hT]
    · intro hminpos
      have hmin : ¬ ((phaseAt s).MinDurationS = 0) := by omega
      by_cases hlt : (phaseAt s).MinDurationS < timeInPhase now s
      · refine ⟨fun _ => hlt, fun _ => ?_⟩
        rcases hT : TransitionToPhase fuel rd ix now s (s.ActivePhase + 1) with ⟨ev, res⟩
        cases res with
        | none =>
          simp [CheckForPhaseTransition, MoveToNextPhase, hA, hP, hdir, htemp, hmin, hlt, hT]
        | some p =>
          rcases p with ⟨s1, ix1⟩
          simp [CheckForPhaseTransition, MoveToNextPhase, hA, hP, hdir, htemp, hmin, hlt, hT]
      · have hmem : Event.moved "Duration/Temperature Reached" (timeInPhase now s) ∉
            (CheckForPhaseTransition fuel rd ix now s).1 := by
          by_cases hmx1 : 0 < (phaseAt s).MaxDurationS
          · by_cases hmx2 : (phaseAt s).MaxDurationS ≤ timeInPhase now s
            · have htail : Event.moved "Duration/Temperature Reached" (timeInPhase now s) ∉
                  (TransitionToPhase fuel rd ix now s (s.ActivePhase + 1)).1 :=
                moved_notMem_lifecycle fuel (.transition (s.ActivePhase + 1)) rd ix now s
                  "Duration/Temperature Reached" (timeInPhase now s)
              simp [CheckForPhaseTransition, MoveToNextPhase, hA, hP, hdir, htemp, hmin,
                hlt, hmx1, hmx2, hstr, htail]
            · simp [CheckForPhaseTransition, hA, hP, hdir, htemp, hmin, hlt, hmx1, hmx2]
          · simp [CheckForPhaseTransition, hA, hP, hdir, htemp, hmin, hlt, hmx1]
        exact iff_of_false hmem hlt
  · constructor
    · intro hmin
      rcases hT : TransitionToPhase fuel rd ix now s (s.ActivePhase + 1) with ⟨ev, res⟩
      cases res with
      | none =>
        simp [CheckForPhaseTransition, MoveToNextPhase, hA, hP, hdir, htemp, hmin, hT]
      | some p =>
        rcases p with ⟨s1, ix1⟩
        simp [CheckForPhaseTransition, MoveToNextPhase, hA, hP, hdir, htemp, hmin, hT]
    · intro hminpos
      have hmin : ¬ ((phaseAt s).MinDurationS = 0) := by omega
      by_cases hlt : (phaseAt s).MinDurationS < timeInPhase now s
      · refine ⟨fun _ => hlt, fun _ => ?_⟩
        rcases hT : TransitionToPhase fuel rd ix now s (s.ActivePhase + 1) with ⟨ev, res⟩
        cases res with
        | none =>
          simp [CheckForPhaseTransition, MoveToNextPhase, hA, hP, hdir, htemp, hmin, hlt, hT]
        | some p =>
          rcases p with ⟨s1, ix1⟩
          simp [CheckForPhaseTransition, MoveToNextPhase, hA, hP, hdir, htemp, hmin, hlt, hT]
      · have hmem : Event.moved "Duration/Temperature Reached" (timeInPhase now s) ∉
            (CheckForPhaseTransition fuel rd ix now s).1 := by
          by_cases hmx1 : 0 < (phaseAt s).MaxDurationS
          · by_cases hmx2 : (phaseAt s).MaxDurationS ≤ timeInPhase now s
            · have htail : Event.moved "Duration/Temperature Reached" (timeInPhase now s) ∉
                  (TransitionToPhase fuel rd ix now s (s.ActivePhase + 1)).1 :=
                moved_notMem_lifecycle fuel (.transition (s.ActivePhase + 1)) rd ix now s
                  "Duration/Temperature Reached" (timeInPhase now s)
              simp [CheckForPhaseTransition, MoveToNextPhase, hA, hP, hdir, htemp, hmin,
                hlt, hmx1, hmx2, hstr, htail]
            · simp [CheckForPhaseTransition, hA, hP, hdir, htemp, hmin, hlt, hmx1, hmx2]
          · simp [CheckForPhaseTransition, hA, hP, hdir, htemp, hmin, hlt, hmx1]
        exact iff_of_false hmem hlt

/-- C2 witness: Pre-heat (exit 150 °C rising, `MinDurationS = 0`) at 150 °C
transitions on the same evaluation; Soak-style positive minimum shown by the
second conjunct at a state in Soak. -/
theorem checkForPhaseTransition_threshold_rule_witness :
    (preheatState.IsActive = true ∧ preheatState.ActivePhase ≠ 0 ∧
      thresholdCrossed preheatState) ∧
    (((phaseAt preheatState).MinDurationS = 0 →
      Event.moved "Exit Temperature Reached" (timeInPhase 60000 preheatState) ∈
        (CheckForPhaseTransition 10 (fun _ => 25) 0 60000 preheatState).1) ∧
    (0 < (phaseAt preheatState).MinDurationS →
      (Event.moved "Duration/Temperature Reached" (timeInPhase 60000 preheatState) ∈
          (CheckForPhaseTransition 10 (fun _ => 25) 0 60000 preheatState).1 ↔
        (phaseAt preheatState).MinDurationS < timeInPhase 60000 preheatState))) :=
  ⟨⟨rfl, by decide, by decide⟩,
   checkForPhaseTransition_threshold_rule 10 0 60000 (fun _ => 25) preheatState rfl
     (by decide) (by decide)⟩

/-- C3: for a phase with positive `MaxDurationS`, once the elapsed time in
the phase reaches it, the check reports "Max Duration Exceeded" on that
evaluation, and — when the exit threshold was not crossed — force-advances
the phase index by one, independently of the threshold/minimum rule. -/
theorem checkForPhaseTransition_max_duration (fuel ix now : Nat) (rd : Nat → Rat)
    (s : OvenState) (hA : s.IsActive = true) (hP : s.ActivePhase ≠ 0)
    (hP4 : s.ActivePhase ≤ NUM_PHASES)
    (hmax : 0 < (phaseAt s).MaxDurationS)
    (ht : (phaseAt s).MaxDurationS ≤ timeInPhase now s) :
    Event.moved "Max Duration Exceeded" (timeInPhase now s) ∈
      (CheckForPhaseTransition (fuel + 1) rd ix now s).1 ∧
    (¬ thresholdCrossed s →
      ((CheckForPhaseTransition (fuel + 1) rd ix now s).2.map fun p => p.1.ActivePhase) =
        some (s.ActivePhase + 1)) := by
  have hne1 : ¬ (s.ActivePhase + 1 = s.ActivePhase) := by omega
  have hnb1 : ¬ (NUM_PHASES + 1 < s.ActivePhase + 1) := by omega
  constructor
  · cases hdir : (phaseAt s).RisingOrFalling with
    | RISE =>
      by_cases htemp : ((phaseAt s).ExitTemperatureC : Rat) ≤ s.TemperatureC
      · by_cases hmin0 : (phaseAt s).MinDurationS = 0
        · simp [CheckForPhaseTransition, MoveToNextPhase, TransitionToPhase, lifecycleRun, hA, hP,
            hdir, htemp, hmin0, hne1, hnb1, hmax, ht]
        · by_cases hminlt : (phaseAt s).MinDurationS < timeInPhase now s
          · simp [CheckForPhaseTransition, MoveToNextPhase, TransitionToPhase, lifecycleRun, hA, hP,
              hdir, htemp, hmin0, hminlt, hne1, hnb1, hmax, ht]
          · simp [CheckForPhaseTransition, MoveToNextPhase, hA, hP, hdir, htemp, hmin0,
              hminlt, hmax, ht]
      · simp [CheckForPhaseTransition, MoveToNextPhase, hA, hP, hdir, htemp, hmax, ht]
    | FALL =>
      by_cases htemp : s.TemperatureC ≤ ((phaseAt s).ExitTemperatureC : Rat)
      · by_cases hmin0 : (phaseAt s).MinDurationS = 0
        · simp [CheckForPhaseTransition, MoveToNextPhase, TransitionToPhase, lifecycleRun, hA, hP,
            hdir, htemp, hmin0, hne1, hnb1, hmax, ht]
        · by_cases hminlt : (phaseAt s).MinDurationS < timeInPhase now s
          · simp [CheckForPhaseTransition, MoveToNextPhase, TransitionToPhase, lifecycleRun, hA, hP,
              hdir, htemp, hmin0, hminlt, hne1, hnb1, hmax, ht]
          · simp [CheckForPhaseTransition, MoveToNextPhase, hA, hP, hdir, htemp, hmin0,
              hminlt, hmax, ht]
      · simp [CheckForPhaseTransition, MoveToNextPhase, hA, hP, hdir, htemp, hmax, ht]
  · intro hnc
    cases hdir : (phaseAt s).RisingOrFalling with
    | RISE =>
      have htemp : ¬ (((phaseAt s).ExitTemperatureC : Rat) ≤ s.TemperatureC) :=
        fun h => hnc (Or.inl ⟨hdir, h⟩)
      simp [CheckForPhaseTransition, MoveToNextPhase, TransitionToPhase, lifecycleRun, hA, hP, hdir,
        htemp, hne1, hnb1, hmax, ht]
    | FALL =>
      have htemp : ¬ (s.TemperatureC ≤ ((phaseAt s).ExitTemperatureC : Rat)) :=
        fun h => hnc (Or.inr ⟨hdir, h⟩)
      simp [CheckForPhaseTransition, MoveToNextPhase, TransitionToPhase, lifecycleRun, hA, hP, hdir,
        htemp, hne1, hnb1, hmax, ht]

/-- C3 witness: Soak (max 120 s) stuck at 100 °C with 120 s elapsed
force-advances from index 2 to 3. -/
theorem checkForPhaseTransition_max_duration_witness :
    (soakOverrunState.IsActive = true ∧ soakOverrunState.ActivePhase ≠ 0 ∧
      soakOverrunState.ActivePhase ≤ NUM_PHASES ∧
      0 < (phaseAt soakOverrunState).MaxDurationS ∧
      (phaseAt soakOverrunState).MaxDurationS ≤ timeInPhase 120000 soakOverrunState) ∧
    (Event.moved "Max Duration Exceeded" (timeInPhase 120000 soakOverrunState) ∈
      (CheckForPhaseTransition 10 (fun _ => 25) 0 120000 soakOverrunState).1 ∧
    (¬ thresholdCrossed soakOverrunState →
      ((CheckForPhaseTransition 10 (fun _ => 25) 0 120000 soakOverrunState).2.map
          fun p => p.1.ActivePhase) =
        some (soakOverrunState.ActivePhase + 1))) :=
  ⟨⟨rfl, by decide, by decide, by decide, by decide⟩,
   checkForPhaseTransition_max_duration 9 0 120000 (fun _ => 25) soakOverrunState rfl
     (by decide) (by decide) (by decide) (by decide)⟩

/-- C1 counterexample: in Soak of the lead-free profile (exit 205 °C rising,
min 30 s, max 120 s) at 210 °C with 120 s elapsed, the threshold rule and
the max-duration rule both fire in the same evaluation of
`CheckForPhaseTransition` — the max-duration test re-uses the phase and
elapsed time captured at entry rather than the post-transition state — and
the phase index advances from 2 to 4 (two transitions, not at most one). -/
theorem checkForPhaseTransition_double_advance :
    soakState.ActivePhase = 2 ∧
    ((CheckForPhaseTransition 10 (fun _ => 25) 0 120000 soakState).2.map
        fun p => p.1.ActivePhase) = some 4 :=
  ⟨rfl, by decide⟩

/-- C1 amended: every individual transition advances the phase index by
exactly one, but a single evaluation of the check performs one transition
per fired guard — up to TWO when both the threshold rule and the
max-duration rule fire (both guards being evaluated against the phase
parameters and elapsed time captured at entry to the check). -/
theorem checkForPhaseTransition_advance_count (fuel ix now : Nat) (rd : Nat → Rat)
    (s : OvenState) (hA : s.IsActive = true) (h1 : 1 ≤ s.ActivePhase)
    (h3 : s.ActivePhase ≤ 3) :
    ((CheckForPhaseTransition (fuel + 1) rd ix now s).2.map fun p => p.1.ActivePhase) =
      some (s.ActivePhase + (if thresholdFired now s then 1 else 0)
        + (if maxFired now s then 1 else 0)) := by
  have hP : s.ActivePhase ≠ 0 := by omega
  have hNP : NUM_PHASES = 4 := rfl
  have hne1 : ¬ (s.ActivePhase + 1 = s.ActivePhase) := by omega
  have hne2 : ¬ (s.ActivePhase + 1 + 1 = s.ActivePhase + 1) := by omega
  have hnb1 : ¬ (NUM_PHASES + 1 < s.ActivePhase + 1) := by simp only [hNP]; omega
  have hnb2 : ¬ (NUM_PHASES + 1 < s.ActivePhase + 1 + 1) := by simp only [hNP]; omega
  cases hdir : (phaseAt s).RisingOrFalling with
  | RISE =>
    by_cases htemp : ((phaseAt s).ExitTemperatureC : Rat) ≤ s.TemperatureC
    · by_cases hmin0 : (phaseAt s).MinDurationS = 0
      · have hTF : thresholdFired now s := ⟨Or.inl ⟨hdir, htemp⟩, Or.inl hmin0⟩
        rw [if_pos hTF]
        by_cases hmx1 : 0 < (phaseAt s).MaxDurationS
        · by_cases hmx2 : (phaseAt s).MaxDurationS ≤ timeInPhase now s
          · have hMF : maxFired now s := ⟨hmx1, hmx2⟩
            rw [if_pos hMF]
            simp [CheckForPhaseTransition, MoveToNextPhase, TransitionToPhase, lifecycleRun, hA, hP, hdir, hne1, hne2, hnb1, hnb2, htemp, hmin0, hmx1, hmx2]
          · have hMF : ¬ maxFired now s := fun h => hmx2 h.2
            rw [if_neg hMF]
            simp [CheckForPhaseTransition, MoveToNextPhase, TransitionToPhase, lifecycleRun, hA, hP, hdir, hne1, hne2, hnb1, hnb2, htemp, hmin0, hmx1, hmx2]
        · have hMF : ¬ maxFired now s := fun h => hmx1 h.1
          rw [if_neg hMF]
          simp [CheckForPhaseTransition, MoveToNextPhase, TransitionToPhase, lifecycleRun, hA, hP, hdir, hne1, hne2, hnb1, hnb2, htemp, hmin0, hmx1]
      · by_cases hminlt : (phaseAt s).MinDurationS < timeInPhase now s
        · have hTF : thresholdFired now s := ⟨Or.inl ⟨hdir, htemp⟩, Or.inr hminlt⟩
          rw [if_pos hTF]
          by_cases hmx1 : 0 < (phaseAt s).MaxDurationS
          · by_cases hmx2 : (phaseAt s).MaxDurationS ≤ timeInPhase now s
            · have hMF : maxFired now s := ⟨hmx1, hmx2⟩
              rw [if_pos hMF]
              simp [CheckForPhaseTransition, MoveToNextPhase, TransitionToPhase, lifecycleRun, hA, hP, hdir, hne1, hne2, hnb1, hnb2, htemp, hmin0, hminlt, hmx1, hmx2]
            · have hMF : ¬ maxFired now s := fun h => hmx2 h.2
              rw [if_neg hMF]
              simp [CheckForPhaseTransition, MoveToNextPhase, TransitionToPhase, lifecycleRun, hA, hP, hdir, hne1, hne2, hnb1, hnb2, htemp, hmin0, hminlt, hmx1, hmx2]
          · have hMF : ¬ maxFired now s := fun h => hmx1 h.1
            rw [if_neg hMF]
            simp [CheckForPhaseTransition, MoveToNextPhase, TransitionToPhase, lifecycleRun, hA, hP, hdir, hne1, hne2, hnb1, hnb2, htemp, hmin0, hminlt, hmx1]
        · have hTF : ¬ thresholdFired now s := fun h => h.2.elim hmin0 hminlt
          rw [if_neg hTF]
          by_cases hmx1 : 0 < (phaseAt s).MaxDurationS
          · by_cases hmx2 : (phaseAt s).MaxDurationS ≤ timeInPhase now s
            · have hMF : maxFired now s := ⟨hmx1, hmx2⟩
              rw [if_pos hMF]
              simp [CheckForPhaseTransition, MoveToNextPhase, TransitionToPhase, lifecycleRun, hA, hP, hdir, hne1, hne2, hnb1, hnb2, htemp, hmin0, hminlt, hmx1, hmx2]
            · have hMF : ¬ maxFired now s := fun h => hmx2 h.2
              rw [if_neg hMF]
              simp [CheckForPhaseTransition, MoveToNextPhase, TransitionToPhase, lifecycleRun, hA, hP, hdir, hne1, hne2, hnb1, hnb2, htemp, hmin0, hminlt, hmx1, hmx2]
          · have hMF : ¬ maxFired now s := fun h => hmx1 h.1
            rw [if_neg hMF]
            simp [CheckForPhaseTransition, MoveToNextPhase, TransitionToPhase, lifecycleRun, hA, hP, hdir, hne1, hne2, hnb1, hnb2, htemp, hmin0, hminlt, hmx1]
    · have hTF : ¬ thresholdFired now s := by
        rintro ⟨hc, hm⟩
        rcases hc with ⟨hd1, ht2⟩ | ⟨hd1, ht2⟩
        · exact htemp ht2
        · rw [hdir] at hd1
          exact CrossingDirection.noConfusion hd1
      rw [if_neg hTF]
      by_cases hmx1 : 0 < (phaseAt s).MaxDurationS
      · by_cases hmx2 : (phaseAt s).MaxDurationS ≤ timeInPhase now s
        · have hMF : maxFired now s := ⟨hmx1, hmx2⟩
          rw [if_pos hMF]
          simp [CheckForPhaseTransition, MoveToNextPhase, TransitionToPhase, lifecycleRun, hA, hP, hdir, hne1, hne2, hnb1, hnb2, htemp, hmx1, hmx2]
        · have hMF : ¬ maxFired now s := fun h => hmx2 h.2
          rw [if_neg hMF]
          simp [CheckForPhaseTransition, MoveToNextPhase, TransitionToPhase, lifecycleRun, hA, hP, hdir, hne1, hne2, hnb1, hnb2, htemp, hmx1, hmx2]
      · have hMF : ¬ maxFired now s := fun h => hmx1 h.1
        rw [if_neg hMF]
        simp [CheckForPhaseTransition, MoveToNextPhase, TransitionToPhase, lifecycleRun, hA, hP, hdir, hne1, hne2, hnb1, hnb2, htemp, hmx1]
  | FALL =>
    by_cases htemp : s.TemperatureC ≤ ((phaseAt s).ExitTemperatureC : Rat)
    · by_cases hmin0 : (phaseAt s).MinDurationS = 0
      · have hTF : thresholdFired now s := ⟨Or.inr ⟨hdir, htemp⟩, Or.inl hmin0⟩
        rw [if_pos hTF]
        by_cases hmx1 : 0 < (phaseAt s).MaxDurationS
        · by_cases hmx2 : (phaseAt s).MaxDurationS ≤ timeInPhase now s
          · have hMF : maxFired now s := ⟨hmx1, hmx2⟩
            rw [if_pos hMF]
            simp [CheckForPhaseTransition, MoveToNextPhase, TransitionToPhase, lifecycleRun, hA, hP, hdir, hne1, hne2, hnb1, hnb2, htemp, hmin0, hmx1, hmx2]
          · have hMF : ¬ maxFired now s := fun h => hmx2 h.2
            rw [if_neg hMF]
            simp [CheckForPhaseTransition, MoveToNextPhase, TransitionToPhase, lifecycleRun, hA, hP, hdir, hne1, hne2, hnb1, hnb2, htemp, hmin0, hmx1, hmx2]
        · have hMF : ¬ maxFired now s := fun h => hmx1 h.1
          rw [if_neg hMF]
          simp [CheckForPhaseTransition, MoveToNextPhase, TransitionToPhase, lifecycleRun, hA, hP, hdir, hne1, hne2, hnb1, hnb2, htemp, hmin0, hmx1]
      · by_cases hminlt : (phaseAt s).MinDurationS < timeInPhase now s
        · have hTF : thresholdFired now s := ⟨Or.inr ⟨hdir, htemp⟩, Or.inr hminlt⟩
          rw [if_pos hTF]
          by_cases hmx1 : 0 < (phaseAt s).MaxDurationS
          · by_cases hmx2 : (phaseAt s).MaxDurationS ≤ timeInPhase now s
            · have hMF : maxFired now s := ⟨hmx1, hmx2⟩
              rw [if_pos hMF]
              simp [CheckForPhaseTransition, MoveToNextPhase, TransitionToPhase, lifecycleRun, hA, hP, hdir, hne1, hne2, hnb1, hnb2, htemp, hmin0, hminlt, hmx1, hmx2]
            · have hMF : ¬ maxFired now s := fun h => hmx2 h.2
              rw [if_neg hMF]
              simp [CheckForPhaseTransition, MoveToNextPhase, TransitionToPhase, lifecycleRun, hA, hP, hdir, hne1, hne2, hnb1, hnb2, htemp, hmin0, hminlt, hmx1, hmx2]
          · have hMF : ¬ maxFired now s := fun h => hmx1 h.1
            rw [if_neg hMF]
            simp [CheckForPhaseTransition, MoveToNextPhase, TransitionToPhase, lifecycleRun, hA, hP, hdir, hne1, hne2, hnb1, hnb2, htemp, hmin0, hminlt, hmx1]
        · have hTF : ¬ thresholdFired now s := fun h => h.2.elim hmin0 hminlt
          rw [if_neg hTF]
          by_cases hmx1 : 0 < (phaseAt s).MaxDurationS
          · by_cases hmx2 : (phaseAt s).MaxDurationS ≤ timeInPhase now s
            · have hMF : maxFired now s := ⟨hmx1, hmx2⟩
              rw [if_pos hMF]
              simp [CheckForPhaseTransition, MoveToNextPhase, TransitionToPhase, lifecycleRun, hA, hP, hdir, hne1, hne2, hnb1, hnb2, htemp, hmin0, hminlt, hmx1, hmx2]
            · have hMF : ¬ maxFired now s := fun h => hmx2 h.2
              rw [if_neg hMF]
              simp [CheckForPhaseTransition, MoveToNextPhase, TransitionToPhase, lifecycleRun, hA, hP, hdir, hne1, hne2, hnb1, hnb2, htemp, hmin0, hminlt, hmx1, hmx2]
          · have hMF : ¬ maxFired now s := fun h => hmx1 h.1
            rw [if_neg hMF]
            simp [CheckForPhaseTransition, MoveToNextPhase, TransitionToPhase, lifecycleRun, hA, hP, hdir, hne1, hne2, hnb1, hnb2, htemp, hmin0, hminlt, hmx1]
    · have hTF : ¬ thresholdFired now s := by
        rintro ⟨hc, hm⟩
        rcases hc with ⟨hd1, ht2⟩ | ⟨hd1, ht2⟩
        · rw [hdir] at hd1
          exact CrossingDirection.noConfusion hd1
        · exact htemp ht2
      rw [if_neg hTF]
      by_cases hmx1 : 0 < (phaseAt s).MaxDurationS
      · by_cases hmx2 : (phaseAt s).MaxDurationS ≤ timeInPhase now s
        · have hMF : maxFired now s := ⟨hmx1, hmx2⟩
          rw [if_pos hMF]
          simp [CheckForPhaseTransition, MoveToNextPhase, TransitionToPhase, lifecycleRun, hA, hP, hdir, hne1, hne2, hnb1, hnb2, htemp, hmx1, hmx2]
        · have hMF : ¬ maxFired now s := fun h => hmx2 h.2
          rw [if_neg hMF]
          simp [CheckForPhaseTransition, MoveToNextPhase, TransitionToPhase, lifecycleRun, hA, hP, hdir, hne1, hne2, hnb1, hnb2, htemp, hmx1, hmx2]
      · have hMF : ¬ maxFired now s := fun h => hmx1 h.1
        rw [if_neg hMF]
        simp [CheckForPhaseTransition, MoveToNextPhase, TransitionToPhase, lifecycleRun, hA, hP, hdir, hne1, hne2, hnb1, hnb2, htemp, hmx1]

/-- C1 amended witness: at the double-firing Soak state the index advances
by one per fired guard (here two). -/
theorem checkForPhaseTransition_advance_count_witness :
    (soakState.IsActive = true ∧ 1 ≤ soakState.ActivePhase ∧ soakState.ActivePhase ≤ 3) ∧
    ((CheckForPhaseTransition 10 (fun _ => 25) 0 120000 soakState).2.map
        fun p => p.1.ActivePhase) =
      some (soakState.ActivePhase + (if thresholdFired 120000 soakState then 1 else 0)
        + (if maxFired 120000 soakState then 1 else 0)) :=
  ⟨⟨rfl, by decide, by decide⟩,
   checkForPhaseTransition_advance_count 9 0 120000 (fun _ => 25) soakState rfl
     (by decide) (by decide)⟩

/-- Helper for C4: with a thermocouple that persistently reads `FAULT_OPEN`
and a stored temperature different from the sentinel, none of
`CaptureTemperatureSample`, `End`, `ResetState` returns, for any fuel: the
source's fault path recurses `CaptureTemperatureSample → End → ResetState →
CaptureTemperatureSample` without bound. -/
theorem persistentFault_diverges_aux (fuel : Nat) :
    (∀ ix now (s : OvenState), s.TemperatureC ≠ FAULT_OPEN →
      (CaptureTemperatureSample fuel (fun _ => FAULT_OPEN) ix now s).2 = none) ∧
    (∀ ix now (s : OvenState) u, s.TemperatureC ≠ FAULT_OPEN →
      (End fuel (fun _ => FAULT_OPEN) ix now s u).2 = none) ∧
    (∀ ix now (s : OvenState), s.TemperatureC ≠ FAULT_OPEN →
      (ResetState fuel (fun _ => FAULT_OPEN) ix now s).2 = none) := by
  induction fuel with
  | zero =>
    refine ⟨?_, ?_, ?_⟩ <;> intros <;> rfl
  | succ n ih =>
    obtain ⟨ihC, ihE, ihR⟩ := ih
    refine ⟨?_, ?_, ?_⟩
    · intro ix now s hT
      have hE := ihE (ix + 1) now { s with IsFaulted := true } false (by simpa using hT)
      rcases hEnd : lifecycleRun n (.endRun false) (fun _ => FAULT_OPEN) (ix + 1) now
          { s with IsFaulted := true } with ⟨ev, res⟩
      rw [End] at hE
      rw [hEnd] at hE
      cases res with
      | none => simp [CaptureTemperatureSample, lifecycleRun, hT, hEnd]
      | some p => exact absurd hE (by simp)
    · intro ix now s u hT
      have hR := ihR ix now { s with PeakTemperatureC := 0, ActiveSince := now }
        (by simpa using hT)
      simpa [End, ResetState, lifecycleRun] using hR
    · intro ix now s hT
      have hC := ihC ix now s hT
      rcases hCap : lifecycleRun n .capture (fun _ => FAULT_OPEN) ix now s with ⟨ev, res⟩
      rw [CaptureTemperatureSample] at hC
      rw [hCap] at hC
      cases res with
      | none => simp [ResetState, lifecycleRun, hCap]
      | some p => exact absurd hC (by simp)

/-- C4 (code slip): at an active run holding 25 °C, a `FAULT_OPEN` reading
does mark the fault and invoke `End(false)` — but if the fault persists, the
re-sampling inside `ResetState` re-enters the very same fault path, so the
handler never returns no matter how much fuel it gets: contrary to the
spec's "the process remains live", the fault-handling path does not
terminate. -/
theorem captureTemperatureSample_persistent_fault_diverges :
    (Event.fault ∈
        (CaptureTemperatureSample 2 (fun _ => FAULT_OPEN) 0 1000 faultRunState).1 ∧
      Event.ended false ∈
        (CaptureTemperatureSample 2 (fun _ => FAULT_OPEN) 0 1000 faultRunState).1) ∧
    ∀ fuel : Nat,
      (CaptureTemperatureSample fuel (fun _ => FAULT_OPEN) 0 1000 faultRunState).2 = none :=
  ⟨⟨by decide, by decide⟩,
   fun fuel => (persistentFault_diverges_aux fuel).1 0 1000 faultRunState (by decide)⟩

end ControLeo2
